import Mathlib

/-
Shallow embedding of the blogapi-admin-rs terminal CRUD admin front end.

The Rust sources embedded here:
  src/mode.rs        - Mode (tab enumeration) and its cyclic successor
  src/action.rs      - Action (semantic commands) and Action::is_focus_changed
  src/app.rs         - App::run key handling, drain-loop dispatch gate, App::draw
  src/components/crudlist.rs - CrudList state machine (cursor, delete, refresh)
  src/components/crudedit.rs - CrudEdit component wrapper over a CrudRow
  src/data/users.rs  - Users list collaborator and UserEdit form (CrudRow)
  src/data/posts.rs  - Posts list collaborator and PostEdit form (CrudRow)
  src/components/tabbar.rs / footer.rs - always-focused header/footer components

Conventions of the embedding: fallible Rust functions (`Result`, `?`) become
`Except String`; the SeaORM database connection becomes an explicit `Db` value
(`connected` models `Option<DatabaseConnection>` being `Some`, and `queryFail`
models a failing query on an established connection); `HashMap<K, String>`
field buffers become `K -> Option String`; panicking indexing (`v[idx]`)
becomes an `Except` error; `usize` arithmetic that can underflow is modelled
with explicit wrapping modulo 2^64 (release-profile semantics; a debug build
would abort at the same inputs). Persistence writes are recorded as an explicit
`PersistCall` trace rather than mutating record tables.
-/

namespace BlogAdmin

/-- Mode, src/mode.rs: the three top-level tabs. -/
inductive Mode where
  | Posts
  | Tags
  | Users
deriving DecidableEq

/-- Mode::next, src/mode.rs lines 28-36: cyclic successor of a tab. -/
def Mode.next : Mode → Mode
  | .Posts => .Tags
  | .Tags => .Users
  | .Users => .Posts

/-- Mode as usize (enum discriminant), used by TabBar::update via `newmode as usize`. -/
def modeIndex : Mode → Nat
  | .Posts => 0
  | .Tags => 1
  | .Users => 2

/-- CrudEditMode, src/data.rs: the New/Edit sub-state of a form. -/
inductive CrudEditMode where
  | New
  | Edit
deriving DecidableEq

/-- Action, src/action.rs: the closed set of semantic commands. -/
inductive Action where
  | Tick
  | Render
  | Resize (w h : Nat)
  | TabChange (m : Mode)
  | CrudEdit (m : Mode) (id : Int)
  | CrudNew (m : Mode)
  | Edit
  | New
  | NextTab
  | Delete
  | Save
  | Down
  | Up
  | Select
  | Tab
  | Suspend
  | Resume
  | Quit
  | Refresh
  | Error (msg : String)
  | Back
  | Help
deriving DecidableEq

/-- Action::is_focus_changed, src/action.rs lines 40-49. -/
def Action.is_focus_changed : Action → Bool
  | .TabChange _ => true
  | .CrudEdit _ _ => true
  | .CrudNew _ => true
  | _ => false

/-- Keys are abstract; crossterm KeyEvent equality is structural. -/
abbrev Key := Nat

/-- A Mode-scoped keybinding table (the `keymap` for the current Mode):
key sequences mapped to Actions. -/
abbrev Keymap := List (List Key × Action)

/-- HashMap::get on the keybinding table: exact-match lookup of a key sequence. -/
def keymapGet (km : Keymap) (seq : List Key) : Option Action :=
  (km.find? (fun p => p.1 == seq)).map (fun p => p.2)

/-- The Event::Key arm of App::run, src/app.rs lines 122-138: try the single-key
sequence first; only if it misses, push the key onto `last_tick_key_events` and
try the full buffered sequence. Returns the new buffer and the emitted action. -/
def handleKey (km : Keymap) (last_tick_key_events : List Key) (k : Key) :
    List Key × Option Action :=
  match keymapGet km [k] with
  | some a => (last_tick_key_events, some a)
  | none =>
    let b := last_tick_key_events ++ [k]
    (b, keymapGet km b)

/-- The Action::Tick arm of the drain loop, src/app.rs lines 153-156:
`self.last_tick_key_events.drain(..)` empties the pending-key buffer. -/
def tickClear (_ : List Key) : List Key := []

/-- A persisted user record (blogapi users model, as read through
src/data/users.rs). The stored credential is modelled so that
`verify_password pw` is `password = pw`. -/
structure User where
  id : Int
  name : String
  email : String
  password : String
deriving DecidableEq

/-- A persisted post record (blogapi posts model, as read through
src/data/posts.rs). -/
structure Post where
  id : Int
  title : String
  summary : Option String
  content : Option String
deriving DecidableEq

/-- The shared persistence collaborator: `connected` models the
`Option<DatabaseConnection>` handle being present, `queryFail` a query failing
on an established connection, `rows` the id column of the generic CrudData
table a CrudList is showing, `users` and `posts` the entity tables. -/
structure Db where
  connected : Bool
  queryFail : Bool
  rows : List Int
  users : List User
  posts : List Post
deriving DecidableEq

/-- CrudData::refresh (the Posts impl, src/data/posts.rs lines 113-121):
errors when the db handle is absent or the query fails, else returns all rows. -/
def Db.refresh (db : Db) : Except String (List Int) :=
  if db.connected then
    if db.queryFail then .error "query failed" else .ok db.rows
  else .error "Database is not connected"

/-- CrudData::delete by record id (src/data/posts.rs lines 105-112): the
selected row's record is deleted from the backing table. -/
def Db.deleteId (db : Db) (id : Int) : Except String Db :=
  if db.connected then
    if db.queryFail then .error "query failed"
    else .ok { db with rows := db.rows.erase id }
  else .error "Database is not connected"

/-- The state of a CrudList component, src/components/crudlist.rs: its owning
Mode, its focus flag, the CrudData row snapshot (by id) and the TableState
selection cursor. -/
structure CrudListState where
  mode : Mode
  focused : Bool
  rows : List Int
  cursor : Option Nat
deriving DecidableEq

/-- usize wrapping subtraction by one (release-profile semantics of
`num_rows() - 1` when `num_rows()` is 0; a debug build would abort there). -/
def USIZE : Nat := 2 ^ 64

/-- Wrapping `n - 1` on usize. -/
def usizeSub1 (n : Nat) : Nat := (n + (USIZE - 1)) % USIZE

/-- CrudList::populate_table, src/components/crudlist.rs lines 52-73: refresh
the snapshot from the collaborator; select row 0 if any rows exist, otherwise
leave the selection untouched. -/
def CrudList.populate_table (db : Db) (s : CrudListState) : Except String CrudListState :=
  match db.refresh with
  | .error e => .error e
  | .ok rs =>
    .ok { s with rows := rs, cursor := if rs.length > 0 then some 0 else s.cursor }

/-- CrudList::delete_selected_post, src/components/crudlist.rs lines 75-80:
delete the record under the cursor, if any; indexing the snapshot out of
bounds panics (modelled as an error). -/
def CrudList.delete_selected_post (db : Db) (s : CrudListState) : Except String Db :=
  match s.cursor with
  | none => .ok db
  | some i =>
    match s.rows[i]? with
    | some id => db.deleteId id
    | none => .error "index out of bounds"

/-- CrudList::select_next, src/components/crudlist.rs lines 82-94: move the
cursor down by one unless it sits at `num_rows() - 1` (usize arithmetic);
an unset cursor becomes 0. -/
def CrudList.select_next (s : CrudListState) : CrudListState :=
  let i := match s.cursor with
    | some i => if i < usizeSub1 s.rows.length then i + 1 else i
    | none => 0
  { s with cursor := some i }

/-- CrudList::select_prev, src/components/crudlist.rs lines 96-108: move the
cursor up by one, stopping at 0; an unset cursor becomes 0. -/
def CrudList.select_prev (s : CrudListState) : CrudListState :=
  let i := match s.cursor with
    | some i => if i > 0 then i - 1 else 0
    | none => 0
  { s with cursor := some i }

/-- CrudData::to_db_id (src/data/posts.rs lines 123-125): the record id of the
row at a snapshot index; panics (error) when out of bounds. -/
def CrudList.to_db_id (s : CrudListState) (i : Nat) : Except String Int :=
  match s.rows[i]? with
  | some id => .ok id
  | none => .error "index out of bounds"

/-- CrudList::update, src/components/crudlist.rs lines 119-158. -/
def CrudList.update (db : Db) (s : CrudListState) (a : Action) :
    Except String (Db × CrudListState × Option Action) :=
  match a with
  | .TabChange newmode =>
    let s := { s with focused := newmode == s.mode }
    if s.focused then
      match CrudList.populate_table db s with
      | .error e => .error e
      | .ok s' => .ok (db, s', some .Render)
    else .ok (db, s, none)
  | .Delete =>
    match CrudList.delete_selected_post db s with
    | .error e => .error e
    | .ok db' =>
      match CrudList.populate_table db' s with
      | .error e => .error e
      | .ok s' => .ok (db', s', some .Render)
  | .New => .ok (db, { s with focused := false }, some (.CrudNew s.mode))
  | .Edit =>
    match s.cursor with
    | some i =>
      match CrudList.to_db_id s i with
      | .error e => .error e
      | .ok id => .ok (db, { s with focused := false }, some (.CrudEdit s.mode id))
    | none => .ok (db, s, none)
  | .Up => .ok (db, CrudList.select_prev s, some .Render)
  | .Down => .ok (db, CrudList.select_next s, some .Render)
  | _ => .ok (db, s, none)

/-- UserField, src/data/users.rs: the ordered fields of the user form. -/
inductive UserField where
  | Name
  | Email
  | Password1
  | Password2
deriving DecidableEq

/-- UserField::next, src/data/users.rs lines 117-126. -/
def UserField.next : UserField → UserField
  | .Name => .Email
  | .Email => .Password1
  | .Password1 => .Password2
  | .Password2 => .Name

/-- PostField, src/data/posts.rs: the ordered fields of the post form. -/
inductive PostField where
  | Title
  | Summary
  | Content
deriving DecidableEq

/-- PostField::next, src/data/posts.rs lines 31-39. -/
def PostField.next : PostField → PostField
  | .Title => .Summary
  | .Summary => .Content
  | .Content => .Title

/-- UserEdit state, src/data/users.rs lines 155-162: New/Edit sub-state, the
loaded row, the active-field pointer (a plain UserField, always present), and
the HashMap of field buffers. -/
structure UserEditState where
  mode : CrudEditMode
  row : Option User
  focused_field : UserField
  fields : UserField → Option String

/-- PostEdit state, src/data/posts.rs lines 128-135: like UserEdit, but the
active-field pointer is an `Option<PostField>`. -/
structure PostEditState where
  mode : CrudEditMode
  row : Option Post
  focused_field : Option PostField
  fields : PostField → Option String

/-- HashMap::insert on a user-field buffer map. -/
def updUField (fs : UserField → Option String) (k : UserField) (v : String) :
    UserField → Option String :=
  fun f => if f = k then some v else fs f

/-- HashMap::insert on a post-field buffer map. -/
def updPField (fs : PostField → Option String) (k : PostField) (v : String) :
    PostField → Option String :=
  fun f => if f = k then some v else fs f

/-- The persistence-collaborator calls a save can issue; recorded as a trace
instead of mutating the entity tables. -/
inductive PersistCall where
  | createWithPassword (name email pw : String)
  | setVerified
  | resetPassword (pw : String)
  | updateUser (id : Int) (name email : String)
  | findUserByEmail (email : String)
  | insertPost (title summary content : String)
  | updatePost (id : Int) (title summary content : String)
deriving DecidableEq

/-- UserEdit::edit, src/data/users.rs lines 122-138: fetch by id; on found,
populate the four buffers and switch the sub-state to Edit; on not-found, only
`self.row` is (re)assigned; errors when the db handle is absent. -/
def UserEdit.edit (db : Db) (id : Int) (s : UserEditState) : Except String UserEditState :=
  if db.connected then
    if db.queryFail then .error "query failed"
    else
      match db.users.find? (fun u => u.id == id) with
      | some user =>
        .ok { s with
              row := some user,
              fields := updUField (updUField (updUField (updUField s.fields
                         .Name user.name) .Email user.email) .Password1 "") .Password2 "",
              mode := .Edit }
      | none => .ok { s with row := none }
  else .error "Database is not connected"

/-- UserEdit::new, src/data/users.rs lines 140-146: empty the four buffers and
switch the sub-state to New. Note it does not touch `focused_field`. -/
def UserEdit.new (s : UserEditState) : UserEditState :=
  { s with
    fields := updUField (updUField (updUField (updUField s.fields
               .Name "") .Email "") .Password1 "") .Password2 "",
    mode := .New }

/-- UserEdit::save, src/data/users.rs lines 148-204: the password is taken only
when the two confirmation buffers compare equal (None == None included); with
no password the whole body is skipped and Ok is returned; in New sub-state the
user is created and verified; in Edit sub-state the password is reset only when
it does not verify against the stored credential, then the user is updated. -/
def UserEdit.save (db : Db) (s : UserEditState) : Except String (List PersistCall) :=
  let password :=
    if s.fields .Password1 = s.fields .Password2 then s.fields .Password1 else none
  if db.connected then
    match password with
    | none => .ok []
    | some pw =>
      if db.queryFail then .error "query failed"
      else
        match s.mode with
        | .New =>
          .ok [.createWithPassword ((s.fields .Name).getD "") ((s.fields .Email).getD "") pw,
               .setVerified]
        | .Edit =>
          match s.row with
          | some user =>
            .ok ((if ¬ (user.password = pw) then [.resetPassword pw] else []) ++
                 [.updateUser user.id ((s.fields .Name).getD "") ((s.fields .Email).getD "")])
          | none => .ok []
  else .ok []

/-- UserEdit::focus_next_field, src/data/users.rs lines 206-208. -/
def UserEdit.focus_next_field (s : UserEditState) : UserEditState :=
  { s with focused_field := s.focused_field.next }

/-- PostEdit::edit, src/data/posts.rs lines 139-161: like UserEdit::edit, and
it also resets the active field to Title on found. -/
def PostEdit.edit (db : Db) (id : Int) (s : PostEditState) : Except String PostEditState :=
  if db.connected then
    if db.queryFail then .error "query failed"
    else
      match db.posts.find? (fun p => p.id == id) with
      | some post =>
        .ok { s with
              row := some post,
              fields := updPField (updPField (updPField s.fields
                         .Title post.title) .Summary (post.summary.getD ""))
                         .Content (post.content.getD ""),
              mode := .Edit,
              focused_field := some .Title }
      | none => .ok { s with row := none }
  else .error "Database is not connected"

/-- PostEdit::new, src/data/posts.rs lines 163-169: empty the three buffers,
reset the active field to Title, switch the sub-state to New. -/
def PostEdit.new (s : PostEditState) : PostEditState :=
  { s with
    fields := updPField (updPField (updPField s.fields .Title "") .Summary "") .Content "",
    focused_field := some .Title,
    mode := .New }

/-- PostEdit::save, src/data/posts.rs lines 171-209: looks up the author by
email, then inserts (New) or updates (Edit) the post; Edit with no loaded row
is an error. -/
def PostEdit.save (db : Db) (s : PostEditState) : Except String (List PersistCall) :=
  if db.connected then
    if db.queryFail then .error "query failed"
    else
      match s.mode with
      | .New =>
        .ok [.findUserByEmail "a.reversat@gmail.com",
             .insertPost ((s.fields .Title).getD "") ((s.fields .Summary).getD "")
               ((s.fields .Content).getD "")]
      | .Edit =>
        match s.row with
        | some post =>
          .ok [.findUserByEmail "a.reversat@gmail.com",
               .updatePost post.id ((s.fields .Title).getD "") ((s.fields .Summary).getD "")
                 ((s.fields .Content).getD "")]
        | none => .error "Edit mode with no row"
  else .ok []

/-- PostEdit::focus_next_field, src/data/posts.rs lines 211-215. -/
def PostEdit.focus_next_field (s : PostEditState) : PostEditState :=
  match s.focused_field with
  | some f => { s with focused_field := some f.next }
  | none => s

/-- The CrudRow capability set (src/data.rs) that a CrudEdit component calls
through, as a record of operations over the entity's form state. -/
structure CrudRowOps (σ : Type) where
  edit : Db → Int → σ → Except String σ
  new : σ → σ
  save : Db → σ → Except String (List PersistCall)
  focus_next_field : σ → σ

/-- The CrudRow impl of UserEdit. -/
def userOps : CrudRowOps UserEditState :=
  ⟨UserEdit.edit, UserEdit.new, UserEdit.save, UserEdit.focus_next_field⟩

/-- The CrudRow impl of PostEdit. -/
def postOps : CrudRowOps PostEditState :=
  ⟨PostEdit.edit, PostEdit.new, PostEdit.save, PostEdit.focus_next_field⟩

/-- The state of a CrudEdit component, src/components/crudedit.rs: owning Mode,
focus flag, and the wrapped CrudRow form state. -/
structure CrudEditC (σ : Type) where
  mode : Mode
  focused : Bool
  data : σ

/-- CrudEdit::update, src/components/crudedit.rs lines 57-85: CrudEdit/CrudNew
matching the own mode focus the component (CrudEdit after running the fetch,
whose error propagates); Save runs the CrudRow save then unfocuses and emits
TabChange(own mode); Back unfocuses and emits TabChange(own mode); Tab advances
the active field. -/
def CrudEdit.update {σ : Type} (ops : CrudRowOps σ) (db : Db) (c : CrudEditC σ)
    (a : Action) : Except String (CrudEditC σ × Option Action) :=
  match a with
  | .CrudEdit m id =>
    if m = c.mode then
      match ops.edit db id c.data with
      | .error e => .error e
      | .ok s' => .ok ({ c with data := s', focused := true }, none)
    else .ok (c, none)
  | .CrudNew m =>
    if m = c.mode then .ok ({ c with data := ops.new c.data, focused := true }, none)
    else .ok (c, none)
  | .Save =>
    match ops.save db c.data with
    | .error e => .error e
    | .ok _ => .ok ({ c with focused := false }, some (.TabChange c.mode))
  | .Back => .ok ({ c with focused := false }, some (.TabChange c.mode))
  | .Tab => .ok ({ c with data := ops.focus_next_field c.data }, none)
  | _ => .ok (c, none)

/-- TabBar state, src/components/tabbar.rs: the highlighted tab index. -/
structure TabBarState where
  selected : Nat
deriving DecidableEq

/-- TabBar::update, src/components/tabbar.rs lines 29-35: TabChange re-selects
the highlighted tab and emits Render. -/
def TabBar.update (s : TabBarState) (a : Action) : TabBarState × Option Action :=
  match a with
  | .TabChange m => (⟨modeIndex m⟩, some .Render)
  | _ => (s, none)

/-- TabBar::focused, src/components/tabbar.rs lines 42-44: constantly true. -/
def TabBar.focused (_ : TabBarState) : Bool := true

/-- Footer state, src/components/footer.rs: the Mode whose keybindings the
legend shows. -/
structure FooterState where
  mode : Mode
deriving DecidableEq

/-- Footer::update, src/components/footer.rs lines 59-64: TabChange updates the
legend's Mode. -/
def Footer.update (s : FooterState) (a : Action) : FooterState × Option Action :=
  match a with
  | .TabChange m => (⟨m⟩, none)
  | _ => (s, none)

/-- Footer::focused, src/components/footer.rs lines 72-74: constantly true. -/
def Footer.focused (_ : FooterState) : Bool := true

/-- The component registry's element type (src/app.rs App::new): the concrete
Component variants the loop dispatches to. The CrudEdit kind carries the
UserEdit instance; the dispatch gate is uniform over all kinds. -/
inductive Comp where
  | tabbar (s : TabBarState)
  | footer (s : FooterState)
  | crudlist (s : CrudListState)
  | crudedit (c : CrudEditC UserEditState)

/-- Component::focused as the loop reads it, per concrete variant. -/
def Comp.focused : Comp → Bool
  | .tabbar s => TabBar.focused s
  | .footer s => Footer.focused s
  | .crudlist s => s.focused
  | .crudedit c => c.focused

/-- Component::update as the loop awaits it, per concrete variant; a CrudList
update threads the shared db handle (delete mutates it). -/
def Comp.update (db : Db) : Comp → Action → Except String (Db × Comp × Option Action)
  | .tabbar s, a =>
    let r := TabBar.update s a
    .ok (db, .tabbar r.1, r.2)
  | .footer s, a =>
    let r := Footer.update s a
    .ok (db, .footer r.1, r.2)
  | .crudlist s, a =>
    match CrudList.update db s a with
    | .error e => .error e
    | .ok (db', s', emitted) => .ok (db', .crudlist s', emitted)
  | .crudedit c, a =>
    match CrudEdit.update userOps db c a with
    | .error e => .error e
    | .ok (c', emitted) => .ok (db, .crudedit c', emitted)

/-- One component's step of the drain loop, src/app.rs lines 189-195: update is
awaited exactly when the component is focused or the action is focus-changing;
the `?` makes an update failure abort App::run. -/
def dispatchOne (db : Db) (c : Comp) (a : Action) :
    Except String (Db × Comp × Option Action) :=
  if c.focused || a.is_focus_changed then Comp.update db c a
  else .ok (db, c, none)

/-- Dispatch of one drained action across the component registry, src/app.rs
lines 189-195: components are visited in registry order, emitted actions are
sent to the queue in order, and the first update failure aborts the whole run
(it is not turned into an Error action). -/
def processAction (db : Db) (comps : List Comp) (a : Action) :
    Except String (Db × List Comp × List Action) :=
  match comps with
  | [] => .ok (db, [], [])
  | c :: rest =>
    match dispatchOne db c a with
    | .error e => .error e
    | .ok (db', c', emitted) =>
      match processAction db' rest a with
      | .error e => .error e
      | .ok (db'', rest', acts) => .ok (db'', c' :: rest', emitted.toList ++ acts)

/-- App::draw, src/app.rs lines 66-86: a component is drawn in the render pass
exactly when it reports itself focused. -/
def drawsComp (c : Comp) : Bool := c.focused

/-- A connected, healthy, empty database used as a concrete input. -/
def dbW : Db := ⟨true, false, [], [], []⟩

/-- C9: applying Mode::next three times over the 3-element Mode cycle is the
identity, so the tab enumeration is a cycle with no terminal state. -/
theorem mode_next_cycle (m : Mode) : m.next.next.next = m := by
  cases m <;> rfl

/-- C1: the drain loop calls a component's update exactly when the component
reports itself focused or the action is focus-changing, and
Action::is_focus_changed holds exactly on TabChange, CrudEdit, CrudNew. -/
theorem dispatch_gate (db : Db) (c : Comp) (a : Action) :
    ((c.focused || a.is_focus_changed) = true → dispatchOne db c a = Comp.update db c a)
    ∧ ((c.focused || a.is_focus_changed) = false → dispatchOne db c a = .ok (db, c, none))
    ∧ (a.is_focus_changed = true ↔
        (∃ m, a = .TabChange m) ∨ (∃ m i, a = .CrudEdit m i) ∨ (∃ m, a = .CrudNew m)) := by
  refine ⟨fun h => ?_, fun h => ?_, ?_⟩
  · simp [dispatchOne, h]
  · simp [dispatchOne, h]
  · cases a <;> simp [Action.is_focus_changed]

/-- Witness for C1: an always-focused component receives a non-focus-changing
action at a concrete input. -/
theorem dispatch_gate_witness :
    (Comp.focused (.tabbar ⟨0⟩) || Action.Tick.is_focus_changed) = true
    ∧ dispatchOne dbW (.tabbar ⟨0⟩) .Tick = Comp.update dbW (.tabbar ⟨0⟩) .Tick :=
  ⟨rfl, (dispatch_gate dbW (.tabbar ⟨0⟩) .Tick).1 rfl⟩

/-- C10: TabBar and Footer report focused in every state, so the dispatch gate
delivers every drained action to them and App::draw draws them on every
render pass. -/
theorem tabbar_footer_always_focused (ts : TabBarState) (fs : FooterState)
    (db : Db) (a : Action) :
    TabBar.focused ts = true
    ∧ Footer.focused fs = true
    ∧ dispatchOne db (.tabbar ts) a = Comp.update db (.tabbar ts) a
    ∧ dispatchOne db (.footer fs) a = Comp.update db (.footer fs) a
    ∧ drawsComp (.tabbar ts) = true
    ∧ drawsComp (.footer fs) = true := by
  refine ⟨rfl, rfl, ?_, ?_, rfl, rfl⟩ <;>
    simp [dispatchOne, Comp.focused, TabBar.focused, Footer.focused]

/-- A connected database whose queries fail, used as a concrete input. -/
def dbFail : Db := ⟨true, true, [], [], []⟩

/-- An unfocused Posts CrudList with an empty snapshot and no selection. -/
def listPosts0 : CrudListState := ⟨.Posts, false, [], none⟩

/-- C2 counterexample: when the persistence collaborator fails inside a
CrudList's update (refresh during TabChange), the drain-loop dispatch returns
the error — App::run aborts; the failure is not wrapped into an Error action
and the loop does not continue. -/
theorem update_failure_aborts_counterexample :
    processAction dbFail [.crudlist listPosts0] (.TabChange .Posts)
      = Except.error "query failed" := by
  rfl

/-- C2 amended: a failure returned by a dispatched component's update
propagates out of the drain loop unchanged (the `?` in App::run), aborting the
run instead of being reported as an Error action. -/
theorem update_failure_aborts (db : Db) (c : Comp) (rest : List Comp) (a : Action)
    (e : String) (hgate : (c.focused || a.is_focus_changed) = true)
    (herr : Comp.update db c a = .error e) :
    processAction db (c :: rest) a = .error e := by
  simp [processAction, dispatchOne, hgate, herr]

/-- Witness for C2 amended: the failing-refresh input, dispatched through a
one-component registry. -/
theorem update_failure_aborts_witness :
    processAction dbFail [.crudlist ⟨.Users, false, [], none⟩] (.TabChange .Users)
      = .error "query failed" :=
  update_failure_aborts dbFail (.crudlist ⟨.Users, false, [], none⟩) []
    (.TabChange .Users) "query failed" rfl rfl

/-- The keybinding table of the C3 scenario: [K1] bound to A1 (Up) and
[K1, K2] bound to A2 (Down), with K1 = 1 and K2 = 2. -/
def kmSeq : Keymap := [([1], .Up), ([1, 2], .Down)]

/-- C3 counterexample: with table {[K1] -> A1, [K1, K2] -> A2}, pressing K1
then K2 in the same tick emits A1 then NOTHING, not A1 then A2: K1 matched as
a single key and never entered the buffer, so the buffered sequence after K2
is [K2], which is unbound. -/
theorem keyseq_counterexample :
    handleKey kmSeq [] 1 = ([], some .Up)
    ∧ handleKey kmSeq (handleKey kmSeq [] 1).1 2 = ([2], none)
    ∧ (none : Option Action) ≠ some .Down := by
  refine ⟨rfl, rfl, by decide⟩

/-- C3 amended: with a table binding [K1] to A1 and leaving [K2] unbound,
pressing K1 emits A1 and leaves the buffer empty, pressing K2 next appends K2
to the buffer and emits nothing (so a [K1, K2] binding is unreachable while
[K1] is bound); after Tick clears the buffer the same presses repeat the same
outcomes. -/
theorem keyseq_resolution (km : Keymap) (k1 k2 : Key) (a1 : Action)
    (h1 : keymapGet km [k1] = some a1)
    (h2 : keymapGet km [k2] = none) :
    handleKey km [] k1 = ([], some a1)
    ∧ handleKey km [] k2 = ([k2], none)
    ∧ handleKey km (tickClear [k2]) k1 = ([], some a1)
    ∧ handleKey km (tickClear [k2]) k2 = ([k2], none) := by
  refine ⟨?_, ?_, ?_, ?_⟩ <;> simp [handleKey, tickClear, h1, h2]

/-- Witness for C3 amended: the scenario table at K1 = 1, K2 = 2. -/
theorem keyseq_resolution_witness :
    handleKey kmSeq [] 1 = ([], some .Up)
    ∧ handleKey kmSeq [] 2 = ([2], none)
    ∧ handleKey kmSeq (tickClear [2]) 1 = ([], some .Up)
    ∧ handleKey kmSeq (tickClear [2]) 2 = ([2], none) :=
  keyseq_resolution kmSeq 1 2 .Up rfl rfl

/-- C4 counterexample, two concrete Delete runs on a focused CrudList:
deleting the only remaining row (first conjunct) leaves the cursor at `some 0`
— a stale, now out-of-bounds selection — not unset; deleting row index 2 of
four rows (third conjunct) resets the cursor to index 0, not to the previous
index 2. -/
theorem delete_cursor_counterexample :
    CrudList.update ⟨true, false, [10], [], []⟩ ⟨.Posts, true, [10], some 0⟩ .Delete
      = .ok (⟨true, false, [], [], []⟩, ⟨.Posts, true, [], some 0⟩, some .Render)
    ∧ (some 0 : Option Nat) ≠ none
    ∧ CrudList.update ⟨true, false, [10, 11, 12, 13], [], []⟩
        ⟨.Posts, true, [10, 11, 12, 13], some 2⟩ .Delete
      = .ok (⟨true, false, [10, 11, 13], [], []⟩,
             ⟨.Posts, true, [10, 11, 13], some 0⟩, some .Render)
    ∧ (some 0 : Option Nat) ≠ some 2 := by
  refine ⟨rfl, by decide, rfl, by decide⟩

/-- C4 amended: after Delete on a focused CrudList with an in-bounds selection
(connected, healthy collaborator), the selected row's record is deleted and
the table refreshed; if rows remain, the cursor is reset to index 0 regardless
of its previous value; if no rows remain, the cursor keeps its previous (now
out-of-bounds) value instead of becoming unset. Render is emitted. -/
theorem delete_cursor (db : Db) (s : CrudListState) (i : Nat) (id : Int)
    (hc : db.connected = true) (hq : db.queryFail = false)
    (hcur : s.cursor = some i) (hid : s.rows[i]? = some id) :
    CrudList.update db s .Delete
      = .ok ({ db with rows := db.rows.erase id },
             { s with rows := db.rows.erase id,
                      cursor := if (db.rows.erase id).length > 0 then some 0 else s.cursor },
             some .Render) := by
  simp [CrudList.update, CrudList.delete_selected_post, hcur, hid, Db.deleteId, hc, hq,
        CrudList.populate_table, Db.refresh]

/-- Witness for C4 amended: deleting row 0 (id 10) of a two-row table. -/
theorem delete_cursor_witness :
    CrudList.update ⟨true, false, [10, 11], [], []⟩ ⟨.Posts, true, [10, 11], some 0⟩ .Delete
      = .ok ({ (⟨true, false, [10, 11], [], []⟩ : Db) with rows := [(10 : Int), 11].erase 10 },
             { (⟨.Posts, true, [10, 11], some 0⟩ : CrudListState) with
               rows := [(10 : Int), 11].erase 10,
               cursor := if ([(10 : Int), 11].erase 10).length > 0 then some 0
                         else (⟨.Posts, true, [10, 11], some 0⟩ : CrudListState).cursor },
             some .Render) :=
  delete_cursor ⟨true, false, [10, 11], [], []⟩ ⟨.Posts, true, [10, 11], some 0⟩ 0 10
    rfl rfl rfl rfl

/-- On usize, `n - 1` computed with wrapping agrees with Nat subtraction as
soon as n is a nonzero usize value. -/
theorem usizeSub1_eq (n : Nat) (h1 : 1 ≤ n) (h2 : n < USIZE) : usizeSub1 n = n - 1 := by
  have h64 : USIZE = 18446744073709551616 := by norm_num [USIZE]
  unfold usizeSub1
  rw [h64] at h2 ⊢
  omega

/-- C8 counterexample: on a one-row table with a (stale) cursor at index 3, a
Down action leaves the cursor at 3 — it is not clamped into [0, rowCount-1],
which would be index 0 — and an Up action moves it to 2, also out of range. -/
theorem up_down_counterexample :
    CrudList.update ⟨true, false, [10], [], []⟩ ⟨.Posts, true, [10], some 3⟩ .Down
      = .ok (⟨true, false, [10], [], []⟩, ⟨.Posts, true, [10], some 3⟩, some .Render)
    ∧ ¬ (3 ≤ (1 : Nat) - 1)
    ∧ CrudList.update ⟨true, false, [10], [], []⟩ ⟨.Posts, true, [10], some 3⟩ .Up
      = .ok (⟨true, false, [10], [], []⟩, ⟨.Posts, true, [10], some 2⟩, some .Render)
    ∧ ¬ (2 ≤ (1 : Nat) - 1) := by
  refine ⟨rfl, by decide, rfl, by decide⟩

/-- C8 amended: on a focused CrudList whose cursor is set to an in-bounds
index i (row count a nonzero usize value), Up moves the cursor to i - 1
(staying at 0 when i = 0) and Down to i + 1 clamped at rowCount - 1, with no
wraparound, each emitting Render; an unset cursor is set to index 0 by either
action. -/
theorem up_down_clamped (db : Db) (s : CrudListState) :
    (∀ i, s.cursor = some i → i < s.rows.length → s.rows.length < USIZE →
      CrudList.update db s .Down
        = .ok (db, { s with cursor := some (min (i + 1) (s.rows.length - 1)) }, some .Render)
      ∧ CrudList.update db s .Up
        = .ok (db, { s with cursor := some (i - 1) }, some .Render))
    ∧ (s.cursor = none →
      CrudList.update db s .Down = .ok (db, { s with cursor := some 0 }, some .Render)
      ∧ CrudList.update db s .Up = .ok (db, { s with cursor := some 0 }, some .Render)) := by
  constructor
  · intro i hcur hi hlen
    have hn1 : usizeSub1 s.rows.length = s.rows.length - 1 :=
      usizeSub1_eq s.rows.length (by omega) hlen
    have hdown : (if i < s.rows.length - 1 then i + 1 else i)
        = min (i + 1) (s.rows.length - 1) := by
      split <;> omega
    have hup : (if i > 0 then i - 1 else 0) = i - 1 := by
      split <;> omega
    constructor
    · simp only [CrudList.update, CrudList.select_next, hcur, hn1, hdown]
    · simp only [CrudList.update, CrudList.select_prev, hcur, hup]
  · intro hcur
    constructor <;> simp [CrudList.update, CrudList.select_next, CrudList.select_prev, hcur]

/-- Witness for C8 amended: a two-row table with the cursor at index 0. -/
theorem up_down_clamped_witness :
    CrudList.update dbW ⟨.Posts, true, [10, 11], some 0⟩ .Down
      = .ok (dbW, { (⟨.Posts, true, [10, 11], some 0⟩ : CrudListState) with
                    cursor := some (min (0 + 1) ([(10 : Int), 11].length - 1)) },
             some .Render)
    ∧ CrudList.update dbW ⟨.Posts, true, [10, 11], some 0⟩ .Up
      = .ok (dbW, { (⟨.Posts, true, [10, 11], some 0⟩ : CrudListState) with
                    cursor := some (0 - 1) },
             some .Render) :=
  (up_down_clamped dbW ⟨.Posts, true, [10, 11], some 0⟩).1 0 rfl
    (by decide) (by norm_num [USIZE])

/-- Projection of a CrudEdit update result onto the focus flag (none when the
update failed). -/
def editFocusedOf (r : Except String (CrudEditC UserEditState × Option Action)) :
    Option Bool :=
  match r with
  | .ok (c, _) => some c.focused
  | .error _ => none

/-- Projection of a CrudEdit update result onto the emitted follow-up action. -/
def editEmittedOf (r : Except String (CrudEditC UserEditState × Option Action)) :
    Option (Option Action) :=
  match r with
  | .ok (_, e) => some e
  | .error _ => none

/-- Projection of a CrudEdit update result onto the active-field pointer. -/
def editFieldPtrOf (r : Except String (CrudEditC UserEditState × Option Action)) :
    Option UserField :=
  match r with
  | .ok (c, _) => some c.data.focused_field
  | .error _ => none

/-- The concrete user of the C5 scenario. -/
def user5 : User := ⟨1, "alice", "a@example.com", "oldpw"⟩

/-- UserEdit field buffers with mismatching password confirmations. -/
def fields5 : UserField → Option String
  | .Name => some "alice"
  | .Email => some "a@example.com"
  | .Password1 => some "abc"
  | .Password2 => some "abd"

/-- A UserEdit in Edit sub-state holding the C5 scenario's buffers. -/
def s5 : UserEditState := ⟨.Edit, some user5, .Name, fields5⟩

/-- The focused Users CrudEdit component wrapping that form. -/
def c5 : CrudEditC UserEditState := ⟨.Users, true, s5⟩

/-- A connected, healthy database holding the C5 scenario's user. -/
def db5 : Db := ⟨true, false, [], [user5], []⟩

/-- C5 counterexample: with Password1 = "abc" and Password2 = "abd", Save
issues no persistence call (first conjunct), but — contrary to the claim —
the component does NOT stay in the edit view: it unfocuses (second conjunct)
and emits TabChange(Users) back to the list view (third conjunct). -/
theorem password_mismatch_counterexample :
    UserEdit.save db5 s5 = .ok []
    ∧ editFocusedOf (CrudEdit.update userOps db5 c5 .Save) = some false
    ∧ editEmittedOf (CrudEdit.update userOps db5 c5 .Save)
        = some (some (.TabChange .Users))
    ∧ c5.focused = true := by
  refine ⟨rfl, rfl, rfl, rfl⟩

/-- C5 amended: when the two password-confirmation buffers differ, Save makes
no persistence call, but the component still unfocuses and emits
TabChange(own mode), transitioning back to the list view. -/
theorem password_mismatch_save (db : Db) (c : CrudEditC UserEditState)
    (h : c.data.fields .Password1 ≠ c.data.fields .Password2) :
    UserEdit.save db c.data = .ok []
    ∧ CrudEdit.update userOps db c .Save
      = .ok ({ c with focused := false }, some (.TabChange c.mode)) := by
  have hsave : UserEdit.save db c.data = .ok [] := by
    unfold UserEdit.save
    rw [if_neg h]
    cases hc : db.connected <;> simp
  refine ⟨hsave, ?_⟩
  simp [CrudEdit.update, userOps, hsave]

/-- Witness for C5 amended: the mismatching-buffers scenario input. -/
theorem password_mismatch_save_witness :
    UserEdit.save db5 c5.data = .ok []
    ∧ CrudEdit.update userOps db5 c5 .Save
      = .ok ({ c5 with focused := false }, some (.TabChange c5.mode)) :=
  password_mismatch_save db5 c5 (by decide)

/-- The default (startup) UserEdit form state: New sub-state, no loaded row,
active field Name, empty HashMap of buffers. -/
def s6 : UserEditState := ⟨.New, none, .Name, fun _ => none⟩

/-- An unfocused Users CrudEdit component in its startup state. -/
def c6 : CrudEditC UserEditState := ⟨.Users, false, s6⟩

/-- A connected, healthy database with no user records. -/
def db6 : Db := ⟨true, false, [], [], []⟩

/-- C6 counterexample: the fetch-by-id for id 5 finds no record (first
conjunct), the component was unfocused (second conjunct), yet after
CrudEdit(Users, 5) the component reports focused (third conjunct) — it does
not remain unfocused on not-found. -/
theorem edit_not_found_counterexample :
    db6.users.find? (fun u => u.id == (5 : Int)) = none
    ∧ c6.focused = false
    ∧ editFocusedOf (CrudEdit.update userOps db6 c6 (.CrudEdit .Users 5)) = some true := by
  refine ⟨rfl, rfl, rfl⟩

/-- C6 amended: when a Users CrudEdit receives CrudEdit(own mode, id) over a
connected, healthy collaborator and the fetch-by-id finds no record, no
sub-state or field change occurs (only the cached row is reassigned to none),
but the component nevertheless becomes focused — focus is set whether or not
the record was found. -/
theorem edit_not_found (db : Db) (c : CrudEditC UserEditState) (id : Int)
    (hc : db.connected = true) (hq : db.queryFail = false)
    (hfind : db.users.find? (fun u => u.id == id) = none) :
    CrudEdit.update userOps db c (.CrudEdit c.mode id)
      = .ok ({ c with focused := true, data := { c.data with row := none } }, none) := by
  simp [CrudEdit.update, userOps, UserEdit.edit, hc, hq, hfind]

/-- Witness for C6 amended: the empty-database input at id 5. -/
theorem edit_not_found_witness :
    CrudEdit.update userOps db6 c6 (.CrudEdit c6.mode 5)
      = .ok ({ c6 with focused := true, data := { c6.data with row := none } }, none) :=
  edit_not_found db6 c6 5 rfl rfl rfl

/-- A UserEdit form state whose active-field pointer sits on Email. -/
def s7 : UserEditState := ⟨.New, none, .Email, fun _ => none⟩

/-- An unfocused Users CrudEdit component with the active field on Email. -/
def c7 : CrudEditC UserEditState := ⟨.Users, false, s7⟩

/-- C7 counterexample: after CrudNew(Users), the UserEdit component's
active-field pointer is still Email — it is not reset to the first field
(Name) of the entity's field order. -/
theorem crudnew_field_pointer_counterexample :
    editFieldPtrOf (CrudEdit.update userOps dbW c7 (.CrudNew .Users)) = some .Email
    ∧ UserField.Email ≠ UserField.Name := by
  refine ⟨rfl, by decide⟩

/-- C7 amended: CrudNew(own mode) empties every field buffer, sets the
sub-state to New and focuses the component for both entity types; PostEdit
also resets the active field to the first field (Title), but UserEdit leaves
its active-field pointer wherever it already was. -/
theorem crudnew_initializes (db : Db) (cu : CrudEditC UserEditState)
    (cp : CrudEditC PostEditState) (f : UserField) (g : PostField) :
    ((UserEdit.new cu.data).fields f = some ""
      ∧ (UserEdit.new cu.data).mode = .New
      ∧ (UserEdit.new cu.data).focused_field = cu.data.focused_field
      ∧ CrudEdit.update userOps db cu (.CrudNew cu.mode)
          = .ok ({ cu with focused := true, data := UserEdit.new cu.data }, none))
    ∧ ((PostEdit.new cp.data).fields g = some ""
      ∧ (PostEdit.new cp.data).mode = .New
      ∧ (PostEdit.new cp.data).focused_field = some .Title
      ∧ CrudEdit.update postOps db cp (.CrudNew cp.mode)
          = .ok ({ cp with focused := true, data := PostEdit.new cp.data }, none)) := by
  refine ⟨⟨?_, rfl, rfl, ?_⟩, ⟨?_, rfl, rfl, ?_⟩⟩
  · cases f <;> rfl
  · simp [CrudEdit.update, userOps]
  · cases g <;> rfl
  · simp [CrudEdit.update, postOps]

end BlogAdmin
